import Mathlib

/-!
Verification development for the satellite-tracker repository.

The definitions below are a shallow embedding of the orbital-tracking code in
`src/components/SatelliteTracker.jsx` and `src/services/spaceTrackService.js`.
JavaScript floating-point numbers are modelled by real numbers; the JavaScript
values `NaN`/`±Infinity` (which the code tests with `isFinite`) are modelled
either by `Option` (a `none` input stands for a null or non-finite argument at
a validation boundary) or by the two-constructor type `JSNum` where the code
inspects finiteness of library outputs.  External calls into the `satellite.js`
library (`propagate`, `gstime`, `eciToGeodetic`, `twoline2satrec`) are
abstracted as an explicit oracle record `SatLib`, since that library is not
part of this repository; every repository-side check and data flow around the
oracle is embedded faithfully.
-/

namespace SatTracker

open Real

/-- Model of JavaScript `Math.atan2 y x`: the principal angle of the point
`(x, y)`, in `(-π, π]`, with `atan2 0 0 = 0`.  This is exactly the argument
of the complex number `x + y*I`. -/
noncomputable def atan2 (y x : ℝ) : ℝ :=
  Complex.arg ⟨x, y⟩

/-- Model of the JavaScript remainder operator `a % b`: `a - b * trunc (a / b)`
(truncated division, remainder has the sign of the dividend). -/
noncomputable def jsRem (a b : ℝ) : ℝ :=
  a - b * (if 0 ≤ a / b then (⌊a / b⌋ : ℝ) else (⌈a / b⌉ : ℝ))

/-- A geodetic position record `{latitude, longitude, altitude}` (degrees,
degrees, kilometres), as produced for consumers of the tracker. -/
structure GeoPos where
  latitude : ℝ
  longitude : ℝ
  altitude : ℝ

/-- The record returned by `calculateVisibility`. -/
structure VisibilityResult where
  range : ℝ
  elevation : ℝ
  azimuth : ℝ
  isVisible : Prop

/-- Embedding of `calculateVisibility` (SatelliteTracker.jsx lines 58-111).
`none` for `satPos` models a null satellite position or one with a non-finite
component; `none` for `observerLat`/`observerLon` models a non-finite observer
coordinate.  Those inputs take the early-return sentinel branch. -/
noncomputable def calculateVisibility (satPos : Option GeoPos)
    (observerLat observerLon : Option ℝ) (observerAlt : ℝ) : VisibilityResult :=
  match satPos, observerLat, observerLon with
  | some sp, some obsLat, some obsLon =>
    let earthRadius : ℝ := 6371
    let obsLatRad := obsLat * π / 180
    let obsLonRad := obsLon * π / 180
    let obsX := (earthRadius + observerAlt / 1000) * Real.cos obsLatRad * Real.cos obsLonRad
    let obsY := (earthRadius + observerAlt / 1000) * Real.cos obsLatRad * Real.sin obsLonRad
    let obsZ := (earthRadius + observerAlt / 1000) * Real.sin obsLatRad
    let satLatRad := sp.latitude * π / 180
    let satLonRad := sp.longitude * π / 180
    let satRadius := earthRadius + sp.altitude
    let satX := satRadius * Real.cos satLatRad * Real.cos satLonRad
    let satY := satRadius * Real.cos satLatRad * Real.sin satLonRad
    let satZ := satRadius * Real.sin satLatRad
    let dx := satX - obsX
    let dy := satY - obsY
    let dz := satZ - obsZ
    let range := Real.sqrt (dx * dx + dy * dy + dz * dz)
    let rangeHorizontal := Real.sqrt (dx * dx + dy * dy)
    let elevation := atan2 dz rangeHorizontal * 180 / π
    let azimuth := jsRem (atan2 dy dx * 180 / π + 360) 360
    { range := range, elevation := elevation, azimuth := azimuth,
      isVisible := elevation > 0 }
  | _, _, _ => { range := 0, elevation := -90, azimuth := 0, isVisible := False }

/-- The spherical-Earth (radius 6371 km) Earth-centred Cartesian conversion
used by `calculateVisibility` for both the satellite and the observer
(altitude taken in kilometres). -/
noncomputable def ecefOfGeodetic (lat lon altKm : ℝ) : ℝ × ℝ × ℝ :=
  ((6371 + altKm) * Real.cos (lat * π / 180) * Real.cos (lon * π / 180),
   (6371 + altKm) * Real.cos (lat * π / 180) * Real.sin (lon * π / 180),
   (6371 + altKm) * Real.sin (lat * π / 180))

/-- Written from the spec's words, for comparison with the code: the elevation
of the observer-to-satellite vector as `atan2 (vertical, horizontal)` where
*vertical* is the component of that vector along the local-up direction at the
observer (the unit radial vector of the observer's position on the sphere) and
*horizontal* is the magnitude of the component orthogonal to local-up. -/
noncomputable def specLocalUpElevation (sp : GeoPos) (obsLat obsLon obsAltM : ℝ) : ℝ :=
  let o := ecefOfGeodetic obsLat obsLon (obsAltM / 1000)
  let s := ecefOfGeodetic sp.latitude sp.longitude sp.altitude
  let d1 := s.1 - o.1
  let d2 := s.2.1 - o.2.1
  let d3 := s.2.2 - o.2.2
  let u1 := Real.cos (obsLat * π / 180) * Real.cos (obsLon * π / 180)
  let u2 := Real.cos (obsLat * π / 180) * Real.sin (obsLon * π / 180)
  let u3 := Real.sin (obsLat * π / 180)
  let vert := d1 * u1 + d2 * u2 + d3 * u3
  let horiz := Real.sqrt (d1 ^ 2 + d2 ^ 2 + d3 ^ 2 - vert ^ 2)
  atan2 vert horiz * 180 / π

/-- A JavaScript number as seen through the code's `isFinite` checks: either a
finite real, or a non-finite value (`NaN`, `Infinity`, `-Infinity`), whose
distinctions the code never uses. -/
inductive JSNum where
  | fin : ℝ → JSNum
  | nonfin : JSNum

/-- Model of JavaScript `isFinite`. -/
def JSNum.isFinite : JSNum → Bool
  | .fin _ => true
  | .nonfin => false

/-- Oracle record abstracting the external `satellite.js` library (not part of
this repository).  `propagate satrec t` returns `none` when `propagate` returns
a record without a usable `position` or one flagged with `.error` (or throws);
`eciToGeodetic pos gmst` bundles `eciToGeodetic` followed by
`degreesLat`/`degreesLong`, yielding the `(latitude, longitude, height)` triple
the repository code consumes, each component possibly non-finite;
`twoline2satrec` returns `none` when the produced `satrec` carries `.error`
(or the call throws).  Times are milliseconds since the epoch, as in
JavaScript `Date` arithmetic. -/
structure SatLib (S E : Type) where
  propagate : S → ℤ → Option E
  gstime : ℤ → ℝ
  eciToGeodetic : E → ℝ → JSNum × JSNum × JSNum
  twoline2satrec : String → String → Option S

/-- A ground-track point `{latitude, longitude, altitude, time}`. -/
structure GroundTrackPoint where
  latitude : ℝ
  longitude : ℝ
  altitude : ℝ
  time : ℤ

/-- One iteration of the `calculateGroundTrack` loop body (SatelliteTracker.jsx
lines 27-52) at minute offset `i`: propagate, convert to geodetic degrees, and
keep the point only when all three components are finite. -/
def groundTrackSample {S E : Type} (L : SatLib S E) (satrec : S) (startTime : ℤ)
    (i : ℕ) : Option GroundTrackPoint :=
  let time := startTime + (i : ℤ) * 60000
  match L.propagate satrec time with
  | none => none
  | some pos =>
    match L.eciToGeodetic pos (L.gstime time) with
    | (.fin latitude, .fin longitude, .fin altitude) =>
        some { latitude := latitude, longitude := longitude,
               altitude := altitude, time := time }
    | _ => none

/-- Embedding of `calculateGroundTrack` (SatelliteTracker.jsx lines 24-55):
the loop `for (i = 0; i < durationMinutes; i += step)` visits the minute
offsets `k * step` for `k < ⌈durationMinutes / step⌉`; invalid samples are
dropped. -/
def calculateGroundTrack {S E : Type} (L : SatLib S E) (satrec : S)
    (startTime : ℤ) (durationMinutes step : ℕ) : List GroundTrackPoint :=
  (List.range ((durationMinutes + step - 1) / step)).filterMap
    (fun k => groundTrackSample L satrec startTime (k * step))

/-- The input records handed to the simulated worker: `{id, name, tle1, tle2}`
with `none` modelling a null/undefined TLE line. -/
structure SatInput where
  id : ℤ
  name : String
  tle1 : Option String
  tle2 : Option String

/-- The per-satellite position record the worker posts back.  Note that the
latitude/longitude/altitude components are forwarded as raw library outputs
(`JSNum`), because the worker performs no finiteness check on them. -/
structure WorkerPos where
  id : ℤ
  name : String
  latitude : JSNum
  longitude : JSNum
  altitude : JSNum

/-- One satellite's processing inside `SatelliteWorker.postMessage`
(SatelliteTracker.jsx lines 190-228): TLE structural validation, parse via
`twoline2satrec`, propagate, convert — returning `none` (the JS `null`, later
removed by `.filter(Boolean)`) on any failure, and otherwise the position
record with its components forwarded unchecked. -/
def workerSatPosition {S E : Type} (L : SatLib S E) (time : ℤ)
    (sat : SatInput) : Option WorkerPos :=
  match sat.tle1, sat.tle2 with
  | some t1, some t2 =>
    if t1.length = 69 ∧ t2.length = 69 then
      match L.twoline2satrec t1 t2 with
      | none => none
      | some satrec =>
        match L.propagate satrec time with
        | none => none
        | some pos =>
          match L.eciToGeodetic pos (L.gstime time) with
          | (la, lo, al) =>
            some { id := sat.id, name := sat.name,
                   latitude := la, longitude := lo, altitude := al }
    else none
  | _, _ => none

/-- The `positions` array computed by `SatelliteWorker.postMessage`
(SatelliteTracker.jsx lines 190-229): `satellites.map(...).filter(Boolean)`. -/
def workerPositions {S E : Type} (L : SatLib S E) (time : ℤ)
    (sats : List SatInput) : List WorkerPos :=
  sats.filterMap (workerSatPosition L time)

/-- The per-minute sampling stage of `predictPasses` (SatelliteTracker.jsx
lines 121-144): propagate at `startTime + i` minutes, skip the iteration when
the position is invalid or any geodetic component is non-finite, otherwise
compute the visibility of the sampled satellite position from the observer
(`calculateVisibility` is called without an explicit altitude, so with the
default `observerAlt = 0`). -/
noncomputable def passVisSample {S E : Type} (L : SatLib S E) (satrec : S)
    (observerLat observerLon : Option ℝ) (startTime : ℤ) (i : ℕ) :
    Option VisibilityResult :=
  let time := startTime + (i : ℤ) * 60000
  match L.propagate satrec time with
  | none => none
  | some pos =>
    match L.eciToGeodetic pos (L.gstime time) with
    | (.fin latitude, .fin longitude, .fin altitude) =>
        some (calculateVisibility
          (some { latitude := latitude, longitude := longitude, altitude := altitude })
          observerLat observerLon 0)
    | _ => none

/-- The in-progress pass record built at pass start (SatelliteTracker.jsx
lines 149-154); `endTime`, `endAzimuth` and `duration` are attached only when
the pass closes. -/
structure CurrentPass where
  startTime : ℤ
  maxElevation : ℝ
  maxElevationTime : ℤ
  startAzimuth : ℝ

/-- A closed pass as appended to the `passes` array (SatelliteTracker.jsx
lines 149-169).  `duration` is `(endTime - startTime) / 60000`, in minutes. -/
structure Pass where
  startTime : ℤ
  maxElevation : ℝ
  maxElevationTime : ℤ
  startAzimuth : ℝ
  endTime : ℤ
  endAzimuth : ℝ
  duration : ℚ

/-- The edge-triggered state-machine body of the `predictPasses` loop
(SatelliteTracker.jsx lines 146-171), run on one valid sample: open a pass
when not in a pass and the elevation exceeds `minElevation`; while in a pass,
update the running maximum; close and append the pass when the elevation drops
strictly below `minElevation`.  The state is `none` outside a pass and
`some currentPass` inside one. -/
noncomputable def passStep (minElevation : ℝ) (time : ℤ) (vis : VisibilityResult)
    (st : Option CurrentPass × List Pass) : Option CurrentPass × List Pass :=
  match st with
  | (none, acc) =>
    if vis.elevation > minElevation then
      (some { startTime := time, maxElevation := vis.elevation,
              maxElevationTime := time, startAzimuth := vis.azimuth }, acc)
    else (none, acc)
  | (some cp, acc) =>
    let cp' := if vis.elevation > cp.maxElevation then
        { cp with maxElevation := vis.elevation, maxElevationTime := time }
      else cp
    if vis.elevation < minElevation then
      (none, acc ++ [{ startTime := cp'.startTime,
                       maxElevation := cp'.maxElevation,
                       maxElevationTime := cp'.maxElevationTime,
                       startAzimuth := cp'.startAzimuth,
                       endTime := time, endAzimuth := vis.azimuth,
                       duration := ((time - cp'.startTime : ℤ) : ℚ) / 60000 }])
    else (some cp', acc)

/-- One whole iteration of the `predictPasses` loop at minute index `i`:
samples that yield no visibility (invalid position or non-finite coordinates)
leave the state unchanged, matching the loop body being skipped. -/
noncomputable def passScanStep {S E : Type} (L : SatLib S E) (satrec : S)
    (observerLat observerLon : Option ℝ) (startTime : ℤ) (minElevation : ℝ)
    (s : Option CurrentPass × List Pass) (i : ℕ) : Option CurrentPass × List Pass :=
  match passVisSample L satrec observerLat observerLon startTime i with
  | none => s
  | some vis => passStep minElevation (startTime + (i : ℤ) * 60000) vis s

/-- The full `predictPasses` scan state after processing the samples of a list
of minute indices. -/
noncomputable def passScan {S E : Type} (L : SatLib S E) (satrec : S)
    (observerLat observerLon : Option ℝ) (startTime : ℤ)
    (minElevation : ℝ) (idxs : List ℕ) : Option CurrentPass × List Pass :=
  idxs.foldl (passScanStep L satrec observerLat observerLon startTime minElevation)
    (none, [])

/-- Embedding of `predictPasses` (SatelliteTracker.jsx lines 114-176): scan
every minute for `hours * 60` minutes and return the closed passes; a pass
still open when the loop ends is dropped with the discarded state. -/
noncomputable def predictPasses {S E : Type} (L : SatLib S E) (satrec : S)
    (observerLat observerLon : Option ℝ) (startTime : ℤ) (hours : ℕ)
    (minElevation : ℝ) : List Pass :=
  (passScan L satrec observerLat observerLon startTime minElevation
    (List.range (hours * 60))).2

/-- Value of a list of decimal digit characters. -/
def digitsToNat (cs : List Char) : ℕ :=
  cs.foldl (fun a c => 10 * a + (c.toNat - 48)) 0

/-- Model of JavaScript `parseInt` on the strings this code feeds it (a string
beginning with decimal digits): the value of the maximal leading digit run. -/
def jsParseInt (s : String) : ℤ :=
  (digitsToNat (s.toList.takeWhile Char.isDigit) : ℤ)

/-- Model of JavaScript `parseFloat` on the strings this code feeds it
(a nonnegative decimal literal `DDD.FFF...`): integer part plus fractional
part, as an exact rational. -/
def jsParseFloat (s : String) : ℚ :=
  let cs := s.toList
  let ip := cs.takeWhile Char.isDigit
  let rest := cs.drop ip.length
  let fp := if rest.headD ' ' = '.' then (rest.drop 1).takeWhile Char.isDigit else []
  (digitsToNat ip : ℚ) + (digitsToNat fp : ℚ) / (10 ^ fp.length)

/-- Model of JavaScript `String.prototype.trim`: strip whitespace from both
ends. -/
def trimChars (cs : List Char) : List Char :=
  ((cs.dropWhile Char.isWhitespace).reverse.dropWhile Char.isWhitespace).reverse

/-- Truncation toward zero, the `ToInteger` conversion ECMAScript applies to
the fractional argument of `Date.prototype.setDate` (via `MakeDay`). -/
def jsTrunc (q : ℚ) : ℤ :=
  if 0 ≤ q then ⌊q⌋ else ⌈q⌉

/-- Milliseconds per day. -/
def msPerDay : ℤ := 86400000

/-- Number of leap years in the proleptic Gregorian calendar with year ≤ `y - 1`
(for the positive years this code handles). -/
def leapCount (y : ℤ) : ℤ :=
  (y - 1) / 4 - (y - 1) / 100 + (y - 1) / 400

/-- Days from 1970-01-01 to January 1 of year `y` (Gregorian calendar), the
day-arithmetic underlying JavaScript `Date`. -/
def daysToJan1 (y : ℤ) : ℤ :=
  365 * (y - 1970) + (leapCount y - leapCount 1970)

/-- Embedding of `parseTLEEpoch` (SatelliteTracker.jsx lines 11-21), returning
milliseconds since 1970-01-01 00:00 in the host's local clock frame (the code
builds the date with `new Date(fullYear, 0, 1)`, which is local time).
The code computes `epoch.setDate(epoch.getDate() + dayOfYear - 1)` on that
Jan-1 midnight date; `getDate()` is `1`, and `setDate` truncates its argument
toward zero (`MakeDay` applies `ToInteger`), so the final instant is local
midnight of day `trunc dayOfYear` of the resolved year. -/
def parseTLEEpoch (tle1 : String) : ℤ :=
  let epochStr := trimChars ((tle1.toList.drop 18).take 14)
  let year := jsParseInt (String.mk (epochStr.take 2))
  let fullYear := if year < 57 then 2000 + year else 1900 + year
  let dayOfYear := jsParseFloat (String.mk (epochStr.drop 2))
  let d := jsTrunc (1 + dayOfYear - 1)
  (daysToJan1 fullYear + (d - 1)) * msPerDay

/-- A satellite record as produced by `parseSpaceTrackData` and consumed by
`loadSatellites` (`{id, name, tle1, tle2, ...}`); `none` TLE lines model
null/undefined ones. -/
structure SatRecord where
  id : ℤ
  name : String
  tle1 : Option String
  tle2 : Option String

/-- A raw Space-Track JSON item, restricted to the fields
`parseSpaceTrackData` inspects; `none` models a missing or falsy field. -/
structure SpaceTrackItem where
  noradCatId : Option ℤ
  objectName : Option String
  tleLine1 : Option String
  tleLine2 : Option String

/-- Embedding of `parseSpaceTrackData` (spaceTrackService.js lines 169-194):
keep only items with all required fields present and both TLE lines exactly
69 characters, and map them to satellite records. -/
def parseSpaceTrackData (data : List SpaceTrackItem) : List SatRecord :=
  data.filterMap fun it =>
    match it.noradCatId, it.objectName, it.tleLine1, it.tleLine2 with
    | some i, some nm, some t1, some t2 =>
      if t1.length = 69 ∧ t2.length = 69 then
        some { id := i, name := nm, tle1 := some t1, tle2 := some t2 }
      else none
    | _, _, _, _ => none

/-- The per-satellite validity predicate of the `loadSatellites` filter
(SatelliteTracker.jsx lines 615-650): both TLE lines present and exactly 69
characters; TLE age `(now - epoch) / 86400000` days not exceeding 60; the TLE
parses without error; and one trial propagation at `now` yields a valid
position. -/
def validSatellite {S E : Type} (L : SatLib S E) (now : ℤ) (sat : SatRecord) : Bool :=
  match sat.tle1, sat.tle2 with
  | some t1, some t2 =>
    if t1.length = 69 ∧ t2.length = 69 then
      if ((now - parseTLEEpoch t1 : ℤ) : ℚ) / 86400000 > 60 then false
      else
        match L.twoline2satrec t1 t2 with
        | none => false
        | some satrec => (L.propagate satrec now).isSome
    else false
  | _, _ => false

/-- The `validSatellites` array computed by `loadSatellites`
(SatelliteTracker.jsx lines 615-650): `satelliteData.filter(...)`. -/
def loadSatellitesFilter {S E : Type} (L : SatLib S E) (now : ℤ)
    (sats : List SatRecord) : List SatRecord :=
  sats.filter (fun sat => validSatellite L now sat)

/-! ### Concrete data and helper lemmas -/

/-- A real TLE line 1 (ISS), with epoch field `24045.50000000`. -/
def issTle1 : String :=
  "1 25544U 98067A   24045.50000000  .00016717  00000+0  10270-3 0  9994"

/-- A real TLE line 2 (ISS). -/
def issTle2 : String :=
  "2 25544  51.6416 247.4627 0006703 130.5360 325.0288 15.49560532 39290"

theorem jsParseFloat_epochField :
    jsParseFloat (String.mk ("24045.50000000".toList.drop 2)) = 91 / 2 := by
  have h1 : (String.mk ("24045.50000000".toList.drop 2)).toList.takeWhile Char.isDigit
      = ['0', '4', '5'] := by decide
  have h2 : (String.mk ("24045.50000000".toList.drop 2)).toList.drop 3
      = ['.', '5', '0', '0', '0', '0', '0', '0', '0'] := by decide
  have h3 : (['.', '5', '0', '0', '0', '0', '0', '0', '0'].drop 1).takeWhile Char.isDigit
      = ['5', '0', '0', '0', '0', '0', '0', '0'] := by decide
  have h4 : digitsToNat ['0', '4', '5'] = 45 := by decide
  have h5 : digitsToNat ['5', '0', '0', '0', '0', '0', '0', '0'] = 50000000 := by decide
  have h6 : List.takeWhile Char.isDigit ['5', '0', '0', '0', '0', '0', '0', '0']
      = ['5', '0', '0', '0', '0', '0', '0', '0'] := by decide
  simp only [jsParseFloat, h1, List.length_cons, List.length_nil, h2, List.headD_cons, h3, h6]
  norm_num [h4, h5]

/-- The code decodes the ISS epoch field `24045.50000000` to local midnight of
2024-02-14 (`(daysToJan1 2024 + 44) * msPerDay` = day index 19767), dropping
the half-day fraction. -/
theorem parseTLEEpoch_iss : parseTLEEpoch issTle1 = 1707868800000 := by
  have htrim : trimChars ((issTle1.toList.drop 18).take 14) = "24045.50000000".toList := by
    decide
  have hyear : jsParseInt (String.mk ("24045.50000000".toList.take 2)) = 24 := by decide
  have hfloor : ⌊(1 + 91 / 2 - 1 : ℚ)⌋ = 45 := by
    rw [Int.floor_eq_iff]
    norm_num
  simp only [parseTLEEpoch, htrim, hyear, jsParseFloat_epochField]
  norm_num [jsTrunc, hfloor]
  decide

theorem atan2_imagPos (y : ℝ) (hy : 0 < y) : atan2 y 0 = π / 2 :=
  Complex.arg_eq_pi_div_two_iff.mpr ⟨rfl, hy⟩

theorem atan2_imagNeg (y : ℝ) (hy : y < 0) : atan2 y 0 = -(π / 2) :=
  Complex.arg_eq_neg_pi_div_two_iff.mpr ⟨rfl, hy⟩

theorem atan2_zero_nonneg (x : ℝ) (hx : 0 ≤ x) : atan2 0 x = 0 :=
  Complex.arg_ofReal_of_nonneg hx

/-- The normalization `(atan2 y x * 180 / π + 360) % 360` used for the azimuth
always lands in `[0, 360)`. -/
theorem azimuth_norm_mem (y x : ℝ) :
    0 ≤ jsRem (atan2 y x * 180 / π + 360) 360 ∧
      jsRem (atan2 y x * 180 / π + 360) 360 < 360 := by
  have hπ : (0 : ℝ) < π := Real.pi_pos
  have h1 : -π < atan2 y x := Complex.neg_pi_lt_arg _
  set a := atan2 y x * 180 / π + 360 with ha
  have h2 : -180 < atan2 y x * 180 / π := by
    have hform : atan2 y x * 180 / π = atan2 y x * (180 / π) := by ring
    have hval : (-180 : ℝ) = -π * (180 / π) := by
      field_simp
      ring
    rw [hform, hval]
    exact mul_lt_mul_of_pos_right h1 (by positivity)
  have hapos : 0 < a := by
    rw [ha]
    linarith
  have hq : 0 ≤ a / 360 := by positivity
  have hrem : jsRem a 360 = 360 * Int.fract (a / 360) := by
    rw [jsRem, if_pos hq, Int.fract]
    have h360 : (360 : ℝ) * (a / 360) = a := by field_simp
    linarith [h360]
  constructor
  · rw [hrem]
    have := Int.fract_nonneg (a / 360)
    positivity
  · rw [hrem]
    have := Int.fract_lt_one (a / 360)
    nlinarith

theorem halfpi_deg : π / 2 * 180 / π = 90 := by
  have h : π ≠ 0 := Real.pi_ne_zero
  field_simp
  ring

theorem neg_halfpi_deg : -(π / 2) * 180 / π = -90 := by
  have h : π ≠ 0 := Real.pi_ne_zero
  field_simp
  ring

theorem visEq_elev : (calculateVisibility (some ⟨0, 0, 400⟩) (some 0) (some 0) 0).elevation = 0 := by
  simp only [calculateVisibility]
  norm_num [Real.cos_zero, Real.sin_zero]
  exact Or.inl (atan2_zero_nonneg _ (Real.sqrt_nonneg _))

theorem specEq_elev : specLocalUpElevation ⟨0, 0, 400⟩ 0 0 0 = 90 := by
  simp only [specLocalUpElevation, ecefOfGeodetic]
  norm_num [Real.cos_zero, Real.sin_zero]
  rw [atan2_imagPos 400 (by norm_num), halfpi_deg]

theorem visHigh_elev : (calculateVisibility (some ⟨90, 0, 400⟩) (some 90) (some 0) 0).elevation = 90 := by
  have e1 : (90 : ℝ) * π / 180 = π / 2 := by ring
  simp only [calculateVisibility]
  norm_num [e1, Real.cos_pi_div_two, Real.sin_pi_div_two, Real.cos_zero, Real.sin_zero]
  rw [atan2_imagPos 400 (by norm_num), halfpi_deg]

theorem visHigh_az : (calculateVisibility (some ⟨90, 0, 400⟩) (some 90) (some 0) 0).azimuth = 0 := by
  have e1 : (90 : ℝ) * π / 180 = π / 2 := by ring
  simp only [calculateVisibility]
  norm_num [e1, Real.cos_pi_div_two, Real.sin_pi_div_two, Real.cos_zero, Real.sin_zero]
  rw [atan2_zero_nonneg 0 le_rfl]
  norm_num [jsRem, Int.floor_one]

theorem visLow_elev : (calculateVisibility (some ⟨-90, 0, 400⟩) (some 90) (some 0) 0).elevation = -90 := by
  have e1 : (90 : ℝ) * π / 180 = π / 2 := by ring
  have e3 : (-90 : ℝ) * π / 180 = -(π / 2) := by ring
  simp only [calculateVisibility, e1, e3, Real.cos_neg, Real.sin_neg, Real.cos_pi_div_two,
    Real.sin_pi_div_two, Real.cos_zero, Real.sin_zero]
  norm_num
  rw [atan2_imagNeg (-13142) (by norm_num), neg_halfpi_deg]

theorem visLow_az : (calculateVisibility (some ⟨-90, 0, 400⟩) (some 90) (some 0) 0).azimuth = 0 := by
  have e1 : (90 : ℝ) * π / 180 = π / 2 := by ring
  have e3 : (-90 : ℝ) * π / 180 = -(π / 2) := by ring
  simp only [calculateVisibility, e1, e3, Real.cos_neg, Real.sin_neg, Real.cos_pi_div_two,
    Real.sin_pi_div_two, Real.cos_zero, Real.sin_zero]
  norm_num
  rw [atan2_zero_nonneg 0 le_rfl]
  norm_num [jsRem, Int.floor_one]

section PassInvariant

variable {S E : Type} (L : SatLib S E) (satrec : S) (observerLat observerLon : Option ℝ)
  (startTime : ℤ) (minElevation : ℝ)

/-- Sample `j` of the scan is valid and its elevation is above the threshold. -/
def SampleElevAbove (j : ℕ) : Prop :=
  ∃ v, passVisSample L satrec observerLat observerLon startTime j = some v ∧
    minElevation < v.elevation

/-- Sample `j` of the scan is valid and its elevation is below the threshold. -/
def SampleElevBelow (j : ℕ) : Prop :=
  ∃ v, passVisSample L satrec observerLat observerLon startTime j = some v ∧
    v.elevation < minElevation

/-- Shape of every closed pass built from the first `n` samples: boundary
times on the minute grid, opening sample above and closing sample below the
threshold, maximum elevation above the threshold, and duration equal to the
whole number of minutes between the boundary samples. -/
def GoodPass (n : ℕ) (p : Pass) : Prop :=
  ∃ js je : ℕ, js < je ∧ je < n ∧
    p.startTime = startTime + (js : ℤ) * 60000 ∧
    p.endTime = startTime + (je : ℤ) * 60000 ∧
    SampleElevAbove L satrec observerLat observerLon startTime minElevation js ∧
    SampleElevBelow L satrec observerLat observerLon startTime minElevation je ∧
    minElevation < p.maxElevation ∧
    p.duration = (je : ℚ) - (js : ℚ)

/-- Shape of an in-progress pass after the first `n` samples. -/
def GoodCur (n : ℕ) (cp : CurrentPass) : Prop :=
  ∃ js : ℕ, js < n ∧ cp.startTime = startTime + (js : ℤ) * 60000 ∧
    SampleElevAbove L satrec observerLat observerLon startTime minElevation js ∧
    minElevation < cp.maxElevation

/-- Invariant of the `predictPasses` scan state after `n` samples. -/
def ScanInv (n : ℕ) (s : Option CurrentPass × List Pass) : Prop :=
  (∀ p ∈ s.2, GoodPass L satrec observerLat observerLon startTime minElevation n p) ∧
  List.Pairwise (fun p q => p.endTime ≤ q.startTime) s.2 ∧
  ∀ cp, s.1 = some cp →
    GoodCur L satrec observerLat observerLon startTime minElevation n cp ∧
    ∀ p ∈ s.2, p.endTime ≤ cp.startTime

theorem scanInv_mono {m n : ℕ} (h : m ≤ n) (s : Option CurrentPass × List Pass)
    (hs : ScanInv L satrec observerLat observerLon startTime minElevation m s) :
    ScanInv L satrec observerLat observerLon startTime minElevation n s := by
  obtain ⟨h1, h2, h3⟩ := hs
  refine ⟨fun p hp => ?_, h2, fun cp hcp => ?_⟩
  · obtain ⟨js, je, hj, hje, rest⟩ := h1 p hp
    exact ⟨js, je, hj, lt_of_lt_of_le hje h, rest⟩
  · obtain ⟨⟨js, hjs, rest⟩, hend⟩ := h3 cp hcp
    exact ⟨⟨js, lt_of_lt_of_le hjs h, rest⟩, hend⟩

theorem passScan_snoc_none (idxs : List ℕ) (i : ℕ)
    (h : passVisSample L satrec observerLat observerLon startTime i = none) :
    passScan L satrec observerLat observerLon startTime minElevation (idxs ++ [i]) =
      passScan L satrec observerLat observerLon startTime minElevation idxs := by
  simp [passScan, passScanStep, List.foldl_append, h]

theorem passScan_snoc_some (idxs : List ℕ) (i : ℕ) (v : VisibilityResult)
    (h : passVisSample L satrec observerLat observerLon startTime i = some v) :
    passScan L satrec observerLat observerLon startTime minElevation (idxs ++ [i]) =
      passStep minElevation (startTime + (i : ℤ) * 60000) v
        (passScan L satrec observerLat observerLon startTime minElevation idxs) := by
  simp [passScan, passScanStep, List.foldl_append, h]

theorem passScan_inv (n : ℕ) :
    ScanInv L satrec observerLat observerLon startTime minElevation n
      (passScan L satrec observerLat observerLon startTime minElevation (List.range n)) := by
  induction n with
  | zero => simp [passScan, ScanInv]
  | succ n ih =>
    rw [List.range_succ]
    cases hvis : passVisSample L satrec observerLat observerLon startTime n with
    | none =>
      rw [passScan_snoc_none L satrec observerLat observerLon startTime minElevation
        (List.range n) n hvis]
      exact scanInv_mono L satrec observerLat observerLon startTime minElevation
        (Nat.le_succ n) _ ih
    | some v =>
      rw [passScan_snoc_some L satrec observerLat observerLon startTime minElevation
        (List.range n) n v hvis]
      generalize hs : passScan L satrec observerLat observerLon startTime minElevation
        (List.range n) = s at ih ⊢
      obtain ⟨st, acc⟩ := s
      obtain ⟨h1, h2, h3⟩ := ih
      cases st with
      | none =>
        by_cases hup : v.elevation > minElevation
        · have hstep : passStep minElevation (startTime + (n : ℤ) * 60000) v (none, acc)
              = (some { startTime := startTime + (n : ℤ) * 60000,
                        maxElevation := v.elevation,
                        maxElevationTime := startTime + (n : ℤ) * 60000,
                        startAzimuth := v.azimuth }, acc) := by
            simp [passStep, hup]
          rw [hstep]
          refine ⟨fun p hp => ?_, h2, fun cp hcp => ?_⟩
          · obtain ⟨js, je, hj, hje, rest⟩ := h1 p hp
            exact ⟨js, je, hj, Nat.lt_succ_of_lt hje, rest⟩
          · obtain rfl : ({ startTime := startTime + (n : ℤ) * 60000,
                              maxElevation := v.elevation,
                              maxElevationTime := startTime + (n : ℤ) * 60000,
                              startAzimuth := v.azimuth } : CurrentPass) = cp := by
              simpa using hcp
            refine ⟨⟨n, Nat.lt_succ_self n, rfl, ⟨v, hvis, hup⟩, hup⟩, fun p hp => ?_⟩
            obtain ⟨js, je, hj, hje, hstart, hend, rest⟩ := h1 p hp
            rw [hend]
            show startTime + (je : ℤ) * 60000 ≤ startTime + (n : ℤ) * 60000
            have hle : (je : ℤ) ≤ (n : ℤ) := by exact_mod_cast Nat.le_of_lt hje
            omega
        · have hstep : passStep minElevation (startTime + (n : ℤ) * 60000) v (none, acc)
              = (none, acc) := by
            simp [passStep, hup]
          rw [hstep]
          exact scanInv_mono L satrec observerLat observerLon startTime minElevation
            (Nat.le_succ n) (none, acc) ⟨h1, h2, h3⟩
      | some cp =>
        obtain ⟨⟨js, hjs, hcst, habove, hmax⟩, hends⟩ := h3 cp rfl
        by_cases hm : v.elevation > cp.maxElevation
        · by_cases hdown : v.elevation < minElevation
          · exact absurd hm (lt_asymm (lt_trans hdown hmax))
          · have hstep : passStep minElevation (startTime + (n : ℤ) * 60000) v (some cp, acc)
                = (some { startTime := cp.startTime, maxElevation := v.elevation,
                          maxElevationTime := startTime + (n : ℤ) * 60000,
                          startAzimuth := cp.startAzimuth }, acc) := by
              simp [passStep, hm, hdown]
            rw [hstep]
            refine ⟨fun p hp => ?_, h2, fun cp2 hcp2 => ?_⟩
            · obtain ⟨js', je', hj, hje, rest⟩ := h1 p hp
              exact ⟨js', je', hj, Nat.lt_succ_of_lt hje, rest⟩
            · obtain rfl : ({ startTime := cp.startTime, maxElevation := v.elevation,
                                maxElevationTime := startTime + (n : ℤ) * 60000,
                                startAzimuth := cp.startAzimuth } : CurrentPass) = cp2 := by
                simpa using hcp2
              exact ⟨⟨js, Nat.lt_succ_of_lt hjs, hcst, habove, lt_trans hmax hm⟩,
                fun p hp => hends p hp⟩
        · by_cases hdown : v.elevation < minElevation
          · have hstep : passStep minElevation (startTime + (n : ℤ) * 60000) v (some cp, acc)
                = (none, acc ++ [{ startTime := cp.startTime,
                                   maxElevation := cp.maxElevation,
                                   maxElevationTime := cp.maxElevationTime,
                                   startAzimuth := cp.startAzimuth,
                                   endTime := startTime + (n : ℤ) * 60000,
                                   endAzimuth := v.azimuth,
                                   duration :=
                                     ((startTime + (n : ℤ) * 60000 - cp.startTime : ℤ) : ℚ)
                                       / 60000 }]) := by
              simp [passStep, hm, hdown]
            rw [hstep]
            refine ⟨fun p hp => ?_, ?_, fun cp2 hcp2 => by simp at hcp2⟩
            · rcases List.mem_append.mp hp with hp | hp
              · obtain ⟨js', je', hj, hje, rest⟩ := h1 p hp
                exact ⟨js', je', hj, Nat.lt_succ_of_lt hje, rest⟩
              · obtain rfl := List.mem_singleton.mp hp
                refine ⟨js, n, hjs, Nat.lt_succ_self n, hcst, rfl, habove,
                  ⟨v, hvis, hdown⟩, hmax, ?_⟩
                show ((startTime + (n : ℤ) * 60000 - cp.startTime : ℤ) : ℚ) / 60000
                  = (n : ℚ) - (js : ℚ)
                rw [hcst]
                push_cast
                field_simp
                ring
            · rw [List.pairwise_append]
              refine ⟨h2, List.pairwise_singleton _ _, fun p hp q hq => ?_⟩
              obtain rfl := List.mem_singleton.mp hq
              exact hends p hp
          · have hstep : passStep minElevation (startTime + (n : ℤ) * 60000) v (some cp, acc)
                = (some cp, acc) := by
              simp [passStep, hm, hdown]
            rw [hstep]
            exact scanInv_mono L satrec observerLat observerLon startTime minElevation
              (Nat.le_succ n) (some cp, acc) ⟨h1, h2, h3⟩

end PassInvariant


/-! ### A concrete pass scenario (observer at the north pole) -/

/-- Concrete oracle: propagation always succeeds (the `E` value is the query
time), and the geodetic conversion puts the satellite at the north pole with
400 km altitude at minute 1 and at the south pole otherwise; the observer sits
at the north pole, so the sampled elevation is `90°` at minute 1 and `-90°`
otherwise. -/
noncomputable def demoLib : SatLib Unit ℤ where
  propagate := fun _ t => some t
  gstime := fun _ => 0
  eciToGeodetic := fun t _ =>
    if t = 60000 then (.fin 90, .fin 0, .fin 400) else (.fin (-90), .fin 0, .fin 400)
  twoline2satrec := fun _ _ => some ()

/-- The visibility sampled at minute 1 of the demo scenario. -/
noncomputable def visHighVal : VisibilityResult :=
  calculateVisibility (some ⟨90, 0, 400⟩) (some 90) (some 0) 0

/-- The visibility sampled away from minute 1 of the demo scenario. -/
noncomputable def visLowVal : VisibilityResult :=
  calculateVisibility (some ⟨-90, 0, 400⟩) (some 90) (some 0) 0

theorem visHighVal_elev : visHighVal.elevation = 90 := visHigh_elev

theorem visHighVal_az : visHighVal.azimuth = 0 := visHigh_az

theorem visLowVal_elev : visLowVal.elevation = -90 := visLow_elev

theorem visLowVal_az : visLowVal.azimuth = 0 := visLow_az

theorem demo_sample_one :
    passVisSample demoLib () (some 90) (some 0) 0 1 = some visHighVal := by
  simp [passVisSample, demoLib, visHighVal]

theorem demo_sample_ne (i : ℕ) (hi : i ≠ 1) :
    passVisSample demoLib () (some 90) (some 0) 0 i = some visLowVal := by
  have hne : (0 : ℤ) + (i : ℤ) * 60000 ≠ 60000 := by omega
  simp [passVisSample, demoLib, visLowVal, hne, hi]

/-- The single pass detected in the demo scenario. -/
noncomputable def demoPass : Pass where
  startTime := 60000
  maxElevation := 90
  maxElevationTime := 60000
  startAzimuth := 0
  endTime := 120000
  endAzimuth := 0
  duration := 1

theorem demo_skip_low (idxs : List ℕ) (acc : List Pass) (h : ∀ i ∈ idxs, i ≠ 1) :
    List.foldl (passScanStep demoLib () (some 90) (some 0) 0 10) (none, acc) idxs
      = (none, acc) := by
  induction idxs with
  | nil => rfl
  | cons i t ih =>
    have hi : i ≠ 1 := h i (List.mem_cons_self i t)
    have hstep : passScanStep demoLib () (some 90) (some 0) 0 10 (none, acc) i
        = (none, acc) := by
      rw [passScanStep, demo_sample_ne i hi]
      simp [passStep, visLowVal_elev]
      norm_num
    rw [List.foldl_cons, hstep]
    exact ih (fun j hj => h j (List.mem_cons_of_mem i hj))

theorem demo_scan : passScan demoLib () (some 90) (some 0) 0 10 (List.range 60)
    = (none, [demoPass]) := by
  have hsplit : List.range 60 = [0, 1, 2] ++ List.range' 3 57 := by decide
  have h0 : passScanStep demoLib () (some 90) (some 0) 0 10 (none, []) 0 = (none, []) := by
    rw [passScanStep, demo_sample_ne 0 (by norm_num)]
    simp [passStep, visLowVal_elev]
    norm_num
  have h1 : passScanStep demoLib () (some 90) (some 0) 0 10 (none, []) 1
      = (some { startTime := 60000, maxElevation := 90, maxElevationTime := 60000,
                startAzimuth := 0 }, []) := by
    rw [passScanStep, demo_sample_one]
    simp [passStep, visHighVal_elev, visHighVal_az]
    norm_num
  have h2 : passScanStep demoLib () (some 90) (some 0) 0 10
      (some { startTime := 60000, maxElevation := 90, maxElevationTime := 60000,
              startAzimuth := 0 }, []) 2 = (none, [demoPass]) := by
    rw [passScanStep, demo_sample_ne 2 (by norm_num)]
    simp [passStep, visLowVal_elev, visLowVal_az, demoPass]
    norm_num
  rw [hsplit, passScan, List.foldl_append]
  simp only [List.foldl_cons, List.foldl_nil, h0, h1, h2]
  exact demo_skip_low (List.range' 3 57) [demoPass]
    (fun i hi => by
      have := List.mem_range'.mp hi
      omega)

/-- The demo scenario returns exactly the one pass. -/
theorem demo_predictPasses :
    predictPasses demoLib () (some 90) (some 0) 0 1 10 = [demoPass] := by
  have h60 : (1 : ℕ) * 60 = 60 := by norm_num
  rw [predictPasses, h60, demo_scan]


theorem calculateVisibility_range_eq (sp : GeoPos) (a b alt : ℝ) :
    (calculateVisibility (some sp) (some a) (some b) alt).range =
      Real.sqrt
        (((ecefOfGeodetic sp.latitude sp.longitude sp.altitude).1
            - (ecefOfGeodetic a b (alt / 1000)).1) ^ 2 +
         ((ecefOfGeodetic sp.latitude sp.longitude sp.altitude).2.1
            - (ecefOfGeodetic a b (alt / 1000)).2.1) ^ 2 +
         ((ecefOfGeodetic sp.latitude sp.longitude sp.altitude).2.2
            - (ecefOfGeodetic a b (alt / 1000)).2.2) ^ 2) := by
  simp only [calculateVisibility, ecefOfGeodetic]
  have h : ∀ x y z : ℝ, x * x + y * y + z * z = x ^ 2 + y ^ 2 + z ^ 2 := fun x y z => by ring
  rw [h]

theorem calculateVisibility_elevation_eq (sp : GeoPos) (a b alt : ℝ) :
    (calculateVisibility (some sp) (some a) (some b) alt).elevation =
      atan2
        ((ecefOfGeodetic sp.latitude sp.longitude sp.altitude).2.2
          - (ecefOfGeodetic a b (alt / 1000)).2.2)
        (Real.sqrt
          (((ecefOfGeodetic sp.latitude sp.longitude sp.altitude).1
              - (ecefOfGeodetic a b (alt / 1000)).1) ^ 2 +
           ((ecefOfGeodetic sp.latitude sp.longitude sp.altitude).2.1
              - (ecefOfGeodetic a b (alt / 1000)).2.1) ^ 2)) * 180 / π := by
  simp only [calculateVisibility, ecefOfGeodetic]
  have h : ∀ x y : ℝ, x * x + y * y = x ^ 2 + y ^ 2 := fun x y => by ring
  rw [h]

theorem calculateVisibility_azimuth_eq (sp : GeoPos) (a b alt : ℝ) :
    (calculateVisibility (some sp) (some a) (some b) alt).azimuth =
      jsRem
        (atan2
          ((ecefOfGeodetic sp.latitude sp.longitude sp.altitude).2.1
            - (ecefOfGeodetic a b (alt / 1000)).2.1)
          ((ecefOfGeodetic sp.latitude sp.longitude sp.altitude).1
            - (ecefOfGeodetic a b (alt / 1000)).1) * 180 / π + 360) 360 := by
  simp only [calculateVisibility, ecefOfGeodetic]

/-- C1 counterexample: for a satellite directly overhead of an equatorial
observer (satellite at latitude 0, longitude 0, altitude 400 km; observer at
latitude 0, longitude 0), the elevation the claim prescribes — `atan2` of the
local-up vertical component against the horizontal component, which is `90°`
here — differs from the elevation `calculateVisibility` returns, which is `0°`
because the code uses the Earth-centred Z axis as "vertical". -/
theorem claim_C1_counterexample :
    (calculateVisibility (some ⟨0, 0, 400⟩) (some 0) (some 0) 0).elevation = 0 ∧
    specLocalUpElevation ⟨0, 0, 400⟩ 0 0 0 = 90 ∧
    (calculateVisibility (some ⟨0, 0, 400⟩) (some 0) (some 0) 0).elevation ≠
      specLocalUpElevation ⟨0, 0, 400⟩ 0 0 0 := by
  refine ⟨visEq_elev, specEq_elev, ?_⟩
  rw [visEq_elev, specEq_elev]
  norm_num

/-- C1 (amended): for all finite inputs, `calculateVisibility` converts both
points to the spherical-Earth (6371 km) Earth-centred frame; the range is the
Euclidean distance of the two Cartesian points; the elevation is
`atan2 (Δz, √(Δx² + Δy²))` in degrees, where `Δz` is the Earth-centred Z
difference (not the observer's local-up component); the azimuth is
`atan2 (Δy, Δx)` in degrees (not `atan2 (east, north)`) normalized to
`[0, 360)`. -/
theorem claim_C1_amended (sp : GeoPos) (obsLat obsLon obsAltM : ℝ) :
    (calculateVisibility (some sp) (some obsLat) (some obsLon) obsAltM).range =
      Real.sqrt
        (((ecefOfGeodetic sp.latitude sp.longitude sp.altitude).1
            - (ecefOfGeodetic obsLat obsLon (obsAltM / 1000)).1) ^ 2 +
         ((ecefOfGeodetic sp.latitude sp.longitude sp.altitude).2.1
            - (ecefOfGeodetic obsLat obsLon (obsAltM / 1000)).2.1) ^ 2 +
         ((ecefOfGeodetic sp.latitude sp.longitude sp.altitude).2.2
            - (ecefOfGeodetic obsLat obsLon (obsAltM / 1000)).2.2) ^ 2) ∧
    (calculateVisibility (some sp) (some obsLat) (some obsLon) obsAltM).elevation =
      atan2
        ((ecefOfGeodetic sp.latitude sp.longitude sp.altitude).2.2
          - (ecefOfGeodetic obsLat obsLon (obsAltM / 1000)).2.2)
        (Real.sqrt
          (((ecefOfGeodetic sp.latitude sp.longitude sp.altitude).1
              - (ecefOfGeodetic obsLat obsLon (obsAltM / 1000)).1) ^ 2 +
           ((ecefOfGeodetic sp.latitude sp.longitude sp.altitude).2.1
              - (ecefOfGeodetic obsLat obsLon (obsAltM / 1000)).2.1) ^ 2)) * 180 / π ∧
    (calculateVisibility (some sp) (some obsLat) (some obsLon) obsAltM).azimuth =
      jsRem
        (atan2
          ((ecefOfGeodetic sp.latitude sp.longitude sp.altitude).2.1
            - (ecefOfGeodetic obsLat obsLon (obsAltM / 1000)).2.1)
          ((ecefOfGeodetic sp.latitude sp.longitude sp.altitude).1
            - (ecefOfGeodetic obsLat obsLon (obsAltM / 1000)).1) * 180 / π + 360) 360 ∧
    0 ≤ (calculateVisibility (some sp) (some obsLat) (some obsLon) obsAltM).azimuth ∧
    (calculateVisibility (some sp) (some obsLat) (some obsLon) obsAltM).azimuth < 360 := by
  refine ⟨calculateVisibility_range_eq sp obsLat obsLon obsAltM,
    calculateVisibility_elevation_eq sp obsLat obsLon obsAltM,
    calculateVisibility_azimuth_eq sp obsLat obsLon obsAltM, ?_, ?_⟩
  · rw [calculateVisibility_azimuth_eq sp obsLat obsLon obsAltM]
    exact (azimuth_norm_mem _ _).1
  · rw [calculateVisibility_azimuth_eq sp obsLat obsLon obsAltM]
    exact (azimuth_norm_mem _ _).2

/-- C4: for every input — valid pairs anywhere on the globe, and the sentinel
result returned for null/non-finite inputs — the `isVisible` flag of the
result of `calculateVisibility` holds exactly when the returned elevation is
strictly positive. -/
theorem claim_C4_isVisible_iff (satPos : Option GeoPos)
    (observerLat observerLon : Option ℝ) (observerAlt : ℝ) :
    (calculateVisibility satPos observerLat observerLon observerAlt).isVisible ↔
      0 < (calculateVisibility satPos observerLat observerLon observerAlt).elevation := by
  rcases satPos with _ | sp <;> rcases observerLat with _ | a <;>
    rcases observerLon with _ | b <;>
    simp [calculateVisibility]


/-- C5: every pass returned by `predictPasses` opens at a sampled minute whose
elevation is above `minElevation` and closes at a sampled minute whose
elevation is below it (so each recorded boundary is within one sample interval
of the threshold crossing), its maximum elevation is at least `minElevation`,
and the returned sequence is in non-decreasing start-time order with no
overlapping intervals (each pass ends no later than the next one starts). -/
theorem claim_C5_pass_invariants {S E : Type} (L : SatLib S E) (satrec : S)
    (observerLat observerLon : Option ℝ) (startTime : ℤ) (hours : ℕ)
    (minElevation : ℝ) :
    (∀ p ∈ predictPasses L satrec observerLat observerLon startTime hours minElevation,
      ∃ js je : ℕ, js < je ∧
        p.startTime = startTime + (js : ℤ) * 60000 ∧
        p.endTime = startTime + (je : ℤ) * 60000 ∧
        SampleElevAbove L satrec observerLat observerLon startTime minElevation js ∧
        SampleElevBelow L satrec observerLat observerLon startTime minElevation je ∧
        minElevation ≤ p.maxElevation) ∧
    List.Pairwise (fun p q => p.endTime ≤ q.startTime)
      (predictPasses L satrec observerLat observerLon startTime hours minElevation) := by
  obtain ⟨h1, h2, _⟩ :=
    passScan_inv L satrec observerLat observerLon startTime minElevation (hours * 60)
  refine ⟨fun p hp => ?_, h2⟩
  obtain ⟨js, je, hj, _, hstart, hend, habove, hbelow, hmax, _⟩ := h1 p hp
  exact ⟨js, je, hj, hstart, hend, habove, hbelow, le_of_lt hmax⟩

/-- C5 witness: in the concrete north-pole scenario the returned pass has
maximum elevation at least the threshold 10, and the returned sequence is
non-overlapping. -/
theorem claim_C5_witness :
    (10 : ℝ) ≤ demoPass.maxElevation ∧
    List.Pairwise (fun p q => p.endTime ≤ q.startTime)
      (predictPasses demoLib () (some 90) (some 0) 0 1 10) := by
  obtain ⟨h1, h2⟩ := claim_C5_pass_invariants demoLib () (some 90) (some 0) 0 1 10
  have hmem : demoPass ∈ predictPasses demoLib () (some 90) (some 0) 0 1 10 := by
    rw [demo_predictPasses]
    exact List.mem_singleton_self _
  obtain ⟨js, je, _, _, _, _, _, hmax⟩ := h1 demoPass hmem
  exact ⟨hmax, h2⟩

/-- C6: a pass still open when the scan reaches the end of its horizon is
discarded — every pass that `predictPasses` returns was closed by a sampled
minute strictly inside the horizon whose elevation fell below the
threshold. -/
theorem claim_C6_no_open_pass {S E : Type} (L : SatLib S E) (satrec : S)
    (observerLat observerLon : Option ℝ) (startTime : ℤ) (hours : ℕ)
    (minElevation : ℝ) :
    ∀ p ∈ predictPasses L satrec observerLat observerLon startTime hours minElevation,
      ∃ je : ℕ, je < hours * 60 ∧
        p.endTime = startTime + (je : ℤ) * 60000 ∧
        SampleElevBelow L satrec observerLat observerLon startTime minElevation je := by
  obtain ⟨h1, _, _⟩ :=
    passScan_inv L satrec observerLat observerLon startTime minElevation (hours * 60)
  intro p hp
  obtain ⟨js, je, _, hje, _, hend, _, hbelow, _, _⟩ := h1 p hp
  exact ⟨je, hje, hend, hbelow⟩

/-- C6 witness: the single pass of the concrete scenario closed at a sampled
minute inside the 60-minute horizon with elevation below the threshold. -/
theorem claim_C6_witness :
    ∃ je : ℕ, je < 1 * 60 ∧ demoPass.endTime = 0 + (je : ℤ) * 60000 ∧
      SampleElevBelow demoLib () (some 90) (some 0) 0 10 je := by
  refine claim_C6_no_open_pass demoLib () (some 90) (some 0) 0 1 10 demoPass ?_
  rw [demo_predictPasses]
  exact List.mem_singleton_self _

/-- C10: every returned pass starts and ends on the one-minute sample grid
anchored at the scan start, ends strictly after it starts, and its duration is
the whole number of minutes between the two grid points, hence at least 1 —
a pass visible at a single sample is still reported with duration 1. -/
theorem claim_C10_duration {S E : Type} (L : SatLib S E) (satrec : S)
    (observerLat observerLon : Option ℝ) (startTime : ℤ) (hours : ℕ)
    (minElevation : ℝ) :
    ∀ p ∈ predictPasses L satrec observerLat observerLon startTime hours minElevation,
      ∃ js je : ℕ, js < je ∧
        p.startTime = startTime + (js : ℤ) * 60000 ∧
        p.endTime = startTime + (je : ℤ) * 60000 ∧
        p.duration = (je : ℚ) - (js : ℚ) ∧
        1 ≤ p.duration ∧
        p.startTime < p.endTime := by
  obtain ⟨h1, _, _⟩ :=
    passScan_inv L satrec observerLat observerLon startTime minElevation (hours * 60)
  intro p hp
  obtain ⟨js, je, hj, _, hstart, hend, _, _, _, hdur⟩ := h1 p hp
  refine ⟨js, je, hj, hstart, hend, hdur, ?_, ?_⟩
  · rw [hdur]
    have : (js : ℚ) + 1 ≤ (je : ℚ) := by exact_mod_cast hj
    linarith
  · rw [hstart, hend]
    have : (js : ℤ) < (je : ℤ) := by exact_mod_cast hj
    omega

/-- C10 witness: the pass of the concrete scenario has whole-minute duration 1
and ends strictly after it starts. -/
theorem claim_C10_witness :
    1 ≤ demoPass.duration ∧ demoPass.startTime < demoPass.endTime := by
  obtain ⟨js, je, _, _, _, _, hge, hlt⟩ :=
    claim_C10_duration demoLib () (some 90) (some 0) 0 1 10 demoPass
      (by rw [demo_predictPasses]; exact List.mem_singleton_self _)
  exact ⟨hge, hlt⟩


/-- Oracle whose geodetic conversion yields a non-finite latitude, used to
exhibit the worker's missing finiteness check. -/
noncomputable def badLib : SatLib Unit Unit where
  propagate := fun _ _ => some ()
  gstime := fun _ => 0
  eciToGeodetic := fun _ _ => (.nonfin, .fin 0, .fin 0)
  twoline2satrec := fun _ _ => some ()

/-- C3 counterexample: the per-tick batch worker does not check the finiteness
of the geodetic components — with a library whose conversion returns a
non-finite latitude, the worker still posts a position record (for a
structurally valid 69/69 TLE) whose latitude fails `isFinite`, instead of
discarding it. -/
theorem claim_C3_counterexample :
    ∃ p ∈ workerPositions badLib 0 [⟨25544, "ISS (ZARYA)", some issTle1, some issTle2⟩],
      p.latitude.isFinite = false := by
  have h1 : issTle1.length = 69 := by decide
  have h2 : issTle2.length = 69 := by decide
  refine ⟨⟨25544, "ISS (ZARYA)", .nonfin, .fin 0, .fin 0⟩, ?_, rfl⟩
  simp [workerPositions, workerSatPosition, badLib, h1, h2]

/-- C3 (amended): the finiteness of all three geodetic components is checked —
with non-finite values discarded, not clamped — at the ground-track sampler
and at the pass-prediction scan, but not at the per-tick batch worker: when
propagation succeeds and any component of the conversion is non-finite, the
ground-track sampler produces no point and the pass scan skips the sample,
while the worker (see the counterexample) forwards the record unchecked. -/
theorem claim_C3_amended {S E : Type} (L : SatLib S E) (satrec : S)
    (observerLat observerLon : Option ℝ) (startTime : ℤ) (i : ℕ) (pos : E)
    (hp : L.propagate satrec (startTime + (i : ℤ) * 60000) = some pos)
    (hnf : (L.eciToGeodetic pos (L.gstime (startTime + (i : ℤ) * 60000))).1.isFinite = false ∨
      (L.eciToGeodetic pos (L.gstime (startTime + (i : ℤ) * 60000))).2.1.isFinite = false ∨
      (L.eciToGeodetic pos (L.gstime (startTime + (i : ℤ) * 60000))).2.2.isFinite = false) :
    groundTrackSample L satrec startTime i = none ∧
    passVisSample L satrec observerLat observerLon startTime i = none := by
  rcases hgeo : L.eciToGeodetic pos (L.gstime (startTime + (i : ℤ) * 60000)) with ⟨la, lo, al⟩
  rw [hgeo] at hnf
  cases la <;> cases lo <;> cases al <;>
    simp_all [groundTrackSample, passVisSample, JSNum.isFinite, hp, hgeo]

/-- C3 witness: with the non-finite-latitude oracle, sample 0 of both the
ground-track sampler and the pass-prediction scan is discarded. -/
theorem claim_C3_witness :
    groundTrackSample badLib () 0 0 = none ∧
    passVisSample badLib () (some 0) (some 0) 0 0 = none :=
  claim_C3_amended badLib () (some 0) (some 0) 0 0 () rfl (Or.inl rfl)

/-- Oracle for which every well-formed satellite propagates successfully. -/
noncomputable def goodLib : SatLib Unit Unit where
  propagate := fun _ _ => some ()
  gstime := fun _ => 0
  eciToGeodetic := fun _ _ => (.fin 0, .fin 0, .fin 400)
  twoline2satrec := fun _ _ => some ()

/-- A worker input with null TLE lines, which fails the worker's validation. -/
def noTleSat : SatInput := ⟨1, "BAD", none, none⟩

/-- C9: per-satellite failures in the worker batch are isolated — a satellite
whose processing fails (returns the JS `null`) is excluded from the tick's
positions, and the batch result is exactly the concatenation of the results
for the satellites before and after it, so every other satellite's position is
still produced. -/
theorem claim_C9_batch_isolation {S E : Type} (L : SatLib S E) (time : ℤ)
    (pre post : List SatInput) (bad : SatInput)
    (hbad : workerSatPosition L time bad = none) :
    workerPositions L time (pre ++ bad :: post)
      = workerPositions L time pre ++ workerPositions L time post := by
  simp [workerPositions, List.filterMap_append, List.filterMap_cons, hbad]

/-- C9 witness: a satellite with null TLE lines in the middle of a batch of
two valid satellites leaves exactly the two valid results. -/
theorem claim_C9_witness :
    workerPositions goodLib 0
        ([⟨25544, "ISS (ZARYA)", some issTle1, some issTle2⟩] ++ noTleSat ::
          [⟨48274, "CSS (TIANHE)", some issTle1, some issTle2⟩])
      = workerPositions goodLib 0 [⟨25544, "ISS (ZARYA)", some issTle1, some issTle2⟩]
        ++ workerPositions goodLib 0 [⟨48274, "CSS (TIANHE)", some issTle1, some issTle2⟩] :=
  claim_C9_batch_isolation goodLib 0 _ _ noTleSat rfl


/-- C7: the `loadSatellites` freshness filter with its fixed 60-day threshold:
a record whose parsed epoch lies 61 days before `now` is excluded from the
validated set whatever the parse/propagation oracle says, and one whose epoch
lies 59 days before `now` is retained provided both lines are 69 characters
and the TLE parses and trial-propagates successfully. -/
theorem claim_C7_freshness {S E : Type} (L : SatLib S E) (now : ℤ)
    (sats : List SatRecord) (sat : SatRecord) (t1 t2 : String)
    (h1 : sat.tle1 = some t1) (h2 : sat.tle2 = some t2) :
    (now - parseTLEEpoch t1 = 61 * msPerDay →
      sat ∉ loadSatellitesFilter L now sats) ∧
    (now - parseTLEEpoch t1 = 59 * msPerDay → t1.length = 69 → t2.length = 69 →
      (∃ r, L.twoline2satrec t1 t2 = some r ∧ (L.propagate r now).isSome) →
      sat ∈ sats → sat ∈ loadSatellitesFilter L now sats) := by
  have hsplit : (now : ℚ) - (parseTLEEpoch t1 : ℚ) = ((now - parseTLEEpoch t1 : ℤ) : ℚ) := by
    push_cast
    ring
  constructor
  · intro hage hmem
    have hval := (List.mem_filter.mp hmem).2
    have hcast : ((now : ℚ) - (parseTLEEpoch t1 : ℚ)) / 86400000 = 61 := by
      rw [hsplit, hage]
      norm_num [msPerDay]
    by_cases hlen : t1.length = 69 ∧ t2.length = 69
    · simp [validSatellite, h1, h2, hlen] at hval
      rw [hcast] at hval
      exact absurd hval.1 (by norm_num)
    · simp [validSatellite, h1, h2, hlen] at hval
  · intro hage hl1 hl2 hprop hin
    obtain ⟨r, hr, hpr⟩ := hprop
    have hcast : ((now : ℚ) - (parseTLEEpoch t1 : ℚ)) / 86400000 = 59 := by
      rw [hsplit, hage]
      norm_num [msPerDay]
    refine List.mem_filter.mpr ⟨hin, ?_⟩
    simp [validSatellite, h1, h2, hl1, hl2, hr, hpr]
    rw [hcast]
    norm_num

/-- The ISS record built from the two concrete TLE lines. -/
def demoSat : SatRecord := ⟨25544, "ISS (ZARYA)", some issTle1, some issTle2⟩

/-- C7 witness: with `now` exactly 61 days after the parsed ISS epoch the
record is dropped, and with `now` 59 days after it is kept (under an oracle
that parses and propagates it). -/
theorem claim_C7_witness :
    demoSat ∉ loadSatellitesFilter goodLib (1707868800000 + 61 * msPerDay) [demoSat] ∧
    demoSat ∈ loadSatellitesFilter goodLib (1707868800000 + 59 * msPerDay) [demoSat] := by
  constructor
  · exact (claim_C7_freshness goodLib (1707868800000 + 61 * msPerDay) [demoSat] demoSat
      issTle1 issTle2 rfl rfl).1 (by rw [parseTLEEpoch_iss]; ring)
  · exact (claim_C7_freshness goodLib (1707868800000 + 59 * msPerDay) [demoSat] demoSat
      issTle1 issTle2 rfl rfl).2 (by rw [parseTLEEpoch_iss]; ring) (by decide) (by decide)
      ⟨(), rfl, rfl⟩ (List.mem_singleton_self _)

/-- C8: a record one of whose TLE lines is not exactly 69 characters is
rejected by the structural filters — `validSatellite` is false for every
parse/propagation oracle (so the TLE text never reaches `twoline2satrec`
during catalog load), the record never enters the validated set, and
`parseSpaceTrackData` can never have produced it in the first place. -/
theorem claim_C8_structural_filter {S E : Type} (L : SatLib S E) (now : ℤ)
    (sats : List SatRecord) (sat : SatRecord) (t : String) (ht : t.length ≠ 69)
    (hsat : sat.tle1 = some t ∨ sat.tle2 = some t) :
    validSatellite L now sat = false ∧
    sat ∉ loadSatellitesFilter L now sats ∧
    ∀ data : List SpaceTrackItem, sat ∉ parseSpaceTrackData data := by
  have hval : validSatellite L now sat = false := by
    rcases hsat with h | h
    · rcases h2 : sat.tle2 with _ | t2
      · simp [validSatellite, h, h2]
      · simp [validSatellite, h, h2, ht]
    · rcases h1 : sat.tle1 with _ | t1
      · simp [validSatellite, h1]
      · simp [validSatellite, h1, h, ht]
  refine ⟨hval, fun hmem => ?_, fun data hmem => ?_⟩
  · have := (List.mem_filter.mp hmem).2
    rw [hval] at this
    exact Bool.false_ne_true this
  · obtain ⟨it, _, hfe⟩ := List.mem_filterMap.mp hmem
    rcases it with ⟨ci, nm, l1, l2⟩
    rcases ci with _ | i <;> rcases nm with _ | nm2 <;> rcases l1 with _ | t1 <;>
      rcases l2 with _ | t2 <;> simp at hfe
    obtain ⟨hc, hrec⟩ := hfe
    obtain rfl := hrec
    rcases hsat with h | h
    · obtain rfl : t1 = t := by simpa using h
      exact ht hc.1
    · obtain rfl : t2 = t := by simpa using h
      exact ht hc.2

/-- A 68-character line 1 (the ISS line with its last character removed). -/
def shortTle : String :=
  "1 25544U 98067A   24045.50000000  .00016717  00000+0  10270-3 0  999"

/-- The record carrying the 68-character line. -/
def shortSat : SatRecord := ⟨25544, "ISS (ZARYA)", some shortTle, some issTle2⟩

/-- C8 witness: the concrete 68-character line is rejected everywhere. -/
theorem claim_C8_witness :
    validSatellite goodLib 0 shortSat = false ∧
    shortSat ∉ loadSatellitesFilter goodLib 0 [shortSat] ∧
    ∀ data : List SpaceTrackItem, shortSat ∉ parseSpaceTrackData data :=
  claim_C8_structural_filter goodLib 0 [shortSat] shortSat shortTle (by decide) (Or.inl rfl)

/-- C2 (code bug): the epoch field `24045.50000000` of the concrete line 1 is
decoded by `parseTLEEpoch` to *midnight* (local time) of 2024-02-14 — day
offset 44 from Jan 1, 2024, with the half-day fraction dropped, because
JavaScript `setDate` truncates its argument — and not to the 12:00:00 instant
(43200000 ms later) that the claim requires; the Y2K pivot itself (`24 < 57`,
so year 2024) is honoured. -/
theorem claim_C2_epoch_truncated :
    parseTLEEpoch issTle1 = (daysToJan1 2024 + 44) * msPerDay ∧
    (daysToJan1 2024 + 44) * msPerDay + 43200000 ≠ parseTLEEpoch issTle1 := by
  have h : parseTLEEpoch issTle1 = (daysToJan1 2024 + 44) * msPerDay := by
    rw [parseTLEEpoch_iss]
    decide
  refine ⟨h, ?_⟩
  rw [h]
  decide


end SatTracker
